import Mathlib

/-!
# Verification of the django-auth-service authentication core

A shallow embedding, in Lean 4, of the authentication logic of the
`django-auth-service` repository:

* the expiring key-value cache the service builds on (Django's `cache`
  interface, used with per-key TTLs throughout the code),
* the password-reset token service (`authentication/services.py`,
  `PasswordResetService`),
* the sliding-window rate limiting, both the view decorator
  (`authentication/decorators.py`, `rate_limit`) and the middleware
  (`authentication/middleware.py`, `RateLimitMiddleware`),
* the login and registration serializers
  (`authentication/serializers.py`),
* the logout / token-revocation view (`authentication/views.py`,
  `logout_user`) and the forgot-password view (`request_password_reset`).

Time is modelled as a natural number of seconds (`now : Nat`); machine
timestamps in the source are POSIX-second floats, and every comparison the
code performs on them is order/difference based, so `Nat` is adequate.
Stateful code is explicit state passing over the cache value.
-/

namespace AuthService

/-! ## The expiring key-value store

Django's `cache` object (backed by Redis in this repository) as used by the
code: `cache.set(key, value, timeout=ttl)` stores `value` under `key`,
replacing any prior value, visible while less than `ttl` seconds have
elapsed; `cache.get(key)` returns the stored value when the key is live,
else the default; `cache.delete(key)` removes the key unconditionally.
The store is a list of entries, at most one per key (maintained by
`cacheSet`), each carrying its absolute expiry instant. -/

structure Entry (V : Type) where
  key : String
  val : V
  expiresAt : Nat
  deriving Repr, DecidableEq

abbrev Store (V : Type) : Type := List (Entry V)

def emptyStore (V : Type) : Store V := []

/-- `cache.get(key)`: the stored value when present and not yet expired.
The first entry carrying the key decides; an expired entry means absent. -/
def cacheGet {V : Type} (s : Store V) (now : Nat) (k : String) : Option V :=
  match s with
  | [] => none
  | e :: rest =>
    if e.key = k then (if now < e.expiresAt then some e.val else none)
    else cacheGet rest now k

/-- Removal of every entry carrying a key (the replacement step of
`cache.set` and the whole of `cache.delete`). -/
def removeKey {V : Type} (s : Store V) (k : String) : Store V :=
  match s with
  | [] => []
  | e :: rest => if e.key = k then removeKey rest k else e :: removeKey rest k

/-- `cache.set(key, value, timeout=ttl)`: replaces any prior value for the
key; the new value expires `ttl` seconds after `now`. -/
def cacheSet {V : Type} (s : Store V) (now : Nat) (k : String) (v : V)
    (ttl : Nat) : Store V :=
  ⟨k, v, now + ttl⟩ :: removeKey s k

/-- `cache.delete(key)`: removes the key unconditionally. -/
def cacheDelete {V : Type} (s : Store V) (k : String) : Store V :=
  removeKey s k

/-! ## The password-reset token service

`authentication/services.py`, class `PasswordResetService`.  Reset tokens
are 32-character random strings; the token is stored in the cache under the
key `password_reset_token:<token>` mapping to a record
`{email, user_id, created_at}` with a 600-second TTL.  The user store (the
external collaborator, `User.objects`) is modelled as a list of user
records; `User.objects.get(email=...)` is lookup by exact email (emails are
unique in the model, `models.py` line 42 `unique=True`). -/

def TOKEN_EXPIRY_SECONDS : Nat := 600

structure TokenData where
  email : String
  userId : Nat
  createdAt : Nat
  deriving Repr, DecidableEq

structure UserRec where
  id : Nat
  email : String
  passwordHash : String
  isActive : Bool
  fullName : String
  deriving Repr, DecidableEq

/-- Python's `str.lower()` as the code applies it to emails: per-character
ASCII lowercasing. -/
def pyLower (s : String) : String := ⟨s.data.map Char.toLower⟩

/-- `User.objects.get(email=email)` — `none` models `User.DoesNotExist`.
Emails are unique, so the first match is the match. -/
def getUserByEmail (users : List UserRec) (email : String) : Option UserRec :=
  users.find? (fun u => u.email == email)

/-- The opaque password hasher (`set_password` / `check_password`).
Its internals are irrelevant to the claims; only agreement between
hashing at set time and checking at verify time matters. -/
def hashPassword (pw : String) : String := "pbkdf2$" ++ pw

/-- `user.set_password(new_password); user.save()` applied to the user
store: the matching user record gets the new password hash. -/
def setUserPassword (users : List UserRec) (uid : Nat) (pw : String) :
    List UserRec :=
  users.map (fun u => if u.id == uid then { u with passwordHash := hashPassword pw } else u)

def resetKey (token : String) : String := "password_reset_token:" ++ token

namespace PasswordResetService

/-- `PasswordResetService.validate_reset_token` (services.py lines 59-70):
look the token up in the cache; return the stored email when found. -/
def validate_reset_token (s : Store TokenData) (now : Nat) (token : String) :
    Option String :=
  match cacheGet s now (resetKey token) with
  | some td => some td.email
  | none => none

structure ResetOutcome where
  success : Bool
  store : Store TokenData
  users : List UserRec
  deriving Repr, DecidableEq

/-- `PasswordResetService.reset_password` (services.py lines 72-96):
fetch the token record from the cache; if absent, fail.  Otherwise look the
user up by the stored email; on `User.DoesNotExist` return `False` (the
`cache.delete` on line 91 is *not* reached).  Otherwise update the password
hash, delete the token from the cache, and return `True`. -/
def reset_password (s : Store TokenData) (users : List UserRec) (now : Nat)
    (token newPassword : String) : ResetOutcome :=
  match cacheGet s now (resetKey token) with
  | none => ⟨false, s, users⟩
  | some td =>
    match getUserByEmail users td.email with
    | none => ⟨false, s, users⟩
    | some u =>
      ⟨true, cacheDelete s (resetKey token), setUserPassword users u.id newPassword⟩

/-- `PasswordResetService.create_password_reset_token` (services.py lines
26-57): if no user has the email, return `None`; otherwise store
`{email, user_id, created_at}` under `password_reset_token:<token>` with a
600-second TTL and return the token.  The random token itself comes from a
CSPRNG in the source (`generate_reset_token`); here the fresh token is an
explicit argument.  The reset email side effect does not touch the store. -/
def create_password_reset_token (s : Store TokenData) (users : List UserRec)
    (now : Nat) (email freshToken : String) :
    Option String × Store TokenData :=
  match getUserByEmail users email with
  | none => (none, s)
  | some u =>
    (some freshToken,
     cacheSet s now (resetKey freshToken) ⟨email, u.id, now⟩ TOKEN_EXPIRY_SECONDS)

end PasswordResetService

/-! ## The forgot-password view

`authentication/views.py`, `request_password_reset` (lines 258-296),
composed with `PasswordResetRequestSerializer` (serializers.py lines
122-138): the serializer requires an email field, checks
`User.objects.get(email=value)` with the raw value and lowercases it on
success; the view then calls
`PasswordResetService.create_password_reset_token` and, on success, returns
HTTP 200 with `message`, `email` and `token` fields in the body. -/

structure ForgotResponse where
  status : Nat
  message : String
  email : Option String
  token : Option String
  deriving Repr, DecidableEq

namespace Views

def request_password_reset (users : List UserRec) (s : Store TokenData)
    (now : Nat) (emailField : Option String) (freshToken : String) :
    ForgotResponse × Store TokenData :=
  match emailField with
  | none => (⟨400, "Invalid email address", none, none⟩, s)
  | some em =>
    match getUserByEmail users em with
    | none => (⟨400, "Invalid email address", none, none⟩, s)
    | some _ =>
      let email := pyLower em
      match PasswordResetService.create_password_reset_token s users now email freshToken with
      | (some token, s1) =>
        (⟨200, "Password reset token sent to your email", some email, some token⟩, s1)
      | (none, s1) => (⟨400, "Failed to generate reset token", none, none⟩, s1)

end Views

/-! ## Sliding-window rate limiting

Two pieces of the source implement the identical read-prune-check-append
algorithm over the shared cache: the view decorator
(`authentication/decorators.py`, `rate_limit(...).decorator.wrapper`,
lines 16-43) and the middleware
(`authentication/middleware.py`, `RateLimitMiddleware.check_rate_limit`,
lines 48-70).  They differ only in the cache key format
(`rate_limit:<view>:<ip>` vs `rate_limit:<ip>:<endpoint>`) and in the shape
of the rejection response (`retry_after = time_window` vs the constant
`60`).  `slidingStep` is that shared algorithm: fetch the timestamp list
(default empty), drop entries with `now - t >= window`, reject when the
remaining count reaches the limit, otherwise append `now` and store the
list back with TTL = `window`. -/

abbrev RateStore := Store (List Nat)

def slidingStep (key : String) (limit window : Nat) (s : RateStore)
    (now : Nat) : Bool × RateStore :=
  let reqs := (cacheGet s now key).getD []
  let pruned := reqs.filter (fun t => now - t < window)
  if limit ≤ pruned.length then (false, s)
  else (true, cacheSet s now key (pruned ++ [now]) window)

/-- Python's `str.startswith` on the concrete paths involved:
character-list prefix test. -/
def pyStartsWith (s p : String) : Bool := p.data.isPrefixOf s.data

structure RateLimitResult where
  allowed : Bool
  retryAfter : Option Nat
  store : RateStore
  deriving Repr, DecidableEq

def rate_limit_key (viewName clientIp : String) : String :=
  "rate_limit:" ++ viewName ++ ":" ++ clientIp

/-- `rate_limit(max_requests, time_window)`'s `wrapper`
(decorators.py lines 16-43): run the sliding-window step under the key
`rate_limit:<view>:<ip>`; on rejection the 429 JSON body carries
`retry_after = time_window`; otherwise the wrapped view runs. -/
def rate_limit_wrapper (maxRequests timeWindow : Nat)
    (viewName clientIp : String) (s : RateStore) (now : Nat) :
    RateLimitResult :=
  let r := slidingStep (rate_limit_key viewName clientIp) maxRequests timeWindow s now
  if r.1 then ⟨true, none, r.2⟩ else ⟨false, some timeWindow, r.2⟩

def middleware_key (clientIp endpoint : String) : String :=
  "rate_limit:" ++ clientIp ++ ":" ++ endpoint

namespace RateLimitMiddleware

/-- `RateLimitMiddleware.check_rate_limit` (middleware.py lines 48-70):
the same sliding-window step under the key `rate_limit:<ip>:<endpoint>`;
the source returns `True` when the request **is** rate-limited, hence the
negation of the step's admitted flag. -/
def check_rate_limit (clientIp endpoint : String) (limit window : Nat)
    (s : RateStore) (now : Nat) : Bool × RateStore :=
  let r := slidingStep (middleware_key clientIp endpoint) limit window s now
  (!r.1, r.2)

/-- The per-endpoint policy table hard-coded in
`RateLimitMiddleware.is_rate_limited` (middleware.py lines 34-39). -/
def rate_limits : List (String × Nat × Nat) :=
  [("/api/v1/auth/login/", 5, 300),
   ("/api/v1/auth/register/", 3, 600),
   ("/api/v1/auth/forgot-password/", 3, 600),
   ("/api/v1/auth/reset-password/", 5, 300)]

/-- `RateLimitMiddleware.is_rate_limited` (middleware.py lines 27-46):
the first table entry whose path prefixes the request path decides; paths
outside the table are never limited. -/
def is_rate_limited (clientIp path : String) (s : RateStore) (now : Nat) :
    Bool × RateStore :=
  match rate_limits.find? (fun p => pyStartsWith path p.1) with
  | some (endpoint, limit, window) =>
    check_rate_limit clientIp endpoint limit window s now
  | none => (false, s)

structure MwOutcome where
  status : Nat
  retryAfter : Option Nat
  handlerRan : Bool
  deriving Repr, DecidableEq

/-- `RateLimitMiddleware.__call__` (middleware.py lines 15-25): when
`is_rate_limited` holds, answer 429 with the fixed `retry_after = 60`
without invoking the downstream handler; otherwise the handler runs (its
own response status is abstracted as 200 here — only the fact that it ran
matters to the claims). -/
def call (clientIp path : String) (s : RateStore) (now : Nat) :
    MwOutcome × RateStore :=
  let r := is_rate_limited clientIp path s now
  if r.1 then (⟨429, some 60, false⟩, r.2)
  else (⟨200, none, true⟩, r.2)

end RateLimitMiddleware

/-- Sequential execution of the decorator wrapper over a list of request
instants from one client to one view: the list of admitted flags and the
final cache state. -/
def run_rate_limit (mx tw : Nat) (vn ip : String) (s : RateStore) :
    List Nat → List Bool × RateStore
  | [] => ([], s)
  | t :: ts =>
    let r := rate_limit_wrapper mx tw vn ip s t
    let rest := run_rate_limit mx tw vn ip r.store ts
    (r.allowed :: rest.1, rest.2)

/-- Sequential execution of the middleware over a list of request instants
from one client to one path. -/
def run_middleware (ip path : String) (s : RateStore) :
    List Nat → List RateLimitMiddleware.MwOutcome × RateStore
  | [] => ([], s)
  | t :: ts =>
    let r := RateLimitMiddleware.call ip path s t
    let rest := run_middleware ip path r.2 ts
    (r.1 :: rest.1, rest.2)

/-- Sequential execution of the bare sliding-window step. -/
def runSliding (key : String) (limit window : Nat) (s : RateStore) :
    List Nat → List Bool × RateStore
  | [] => ([], s)
  | t :: ts =>
    let r := slidingStep key limit window s t
    let rest := runSliding key limit window r.2 ts
    (r.1 :: rest.1, rest.2)


def resetPath : String := "/api/v1/auth/reset-password/"

/-! ## The login serializer -/

/-- Modelled from the spec: the `authenticate` delegate called by the
login serializer is Django framework code, not part of src.  Per spec §4.5
("Login: look up user by email (delegate) → verify password hash"), it
returns the user when the email resolves and the password hash matches,
and a single not-found signal covering both "no such user" and "wrong
password". -/
def authenticate (users : List UserRec) (email password : String) :
    Option UserRec :=
  match getUserByEmail users email with
  | none => none
  | some u => if u.passwordHash == hashPassword password then some u else none

inductive LoginResult where
  | ok (u : UserRec)
  | err (msg : String)
  deriving Repr, DecidableEq

namespace UserLoginSerializer

/-- `UserLoginSerializer.validate` (serializers.py lines 89-120): when both
fields are non-empty, authenticate; `None` →
`Invalid email or password.`; an inactive user →
`User account is disabled.`; else accept the user. -/
def validate (users : List UserRec) (email password : String) :
    LoginResult :=
  if email ≠ "" ∧ password ≠ "" then
    match authenticate users email password with
    | none => .err "Invalid email or password."
    | some u =>
      if !u.isActive then .err "User account is disabled."
      else .ok u
  else .err "Both email and password are required."

end UserLoginSerializer

/-! ## The registration serializer (email path) -/

namespace UserRegistrationSerializer

/-- `UserRegistrationSerializer.validate_email` (serializers.py lines
29-35): reject when a user exists whose stored email equals the submitted
string exactly (`User.objects.filter(email=value).exists()` is an exact
match on the raw value); on success return the lowercased value. -/
def validate_email (users : List UserRec) (value : String) :
    Option String :=
  if users.any (fun u => u.email == value) then none
  else some (pyLower value)

end UserRegistrationSerializer

inductive RegisterOutcome where
  | created (newUsers : List UserRec) (storedEmail : String)
  | duplicateEmailError
  | integrityFault
  deriving Repr, DecidableEq

/-- The email-deciding path of registration: serializer email validation
(serializers.py lines 29-35), then `create` → `User.objects.create_user`
(serializers.py lines 65-75, models.py lines 8-16) saving the
already-lowercased email.  The `unique=True` constraint on `User.email`
(models.py lines 40-44) makes saving a second user with an email equal to
a stored one an integrity fault — nothing in `register_user`
(views.py lines 89-125) catches it, so it surfaces as an unhandled
error, not a validation response. -/
def register_email_flow (users : List UserRec) (value : String)
    (freshId : Nat) (fullName pwHash : String) : RegisterOutcome :=
  match UserRegistrationSerializer.validate_email users value with
  | none => .duplicateEmailError
  | some email =>
    if users.any (fun u => u.email == email) then .integrityFault
    else .created (users ++ [⟨freshId, email, pwHash, true, fullName⟩]) email

/-! ## Logout and refresh-token revocation -/

structure RefreshTok where
  jti : String
  exp : Nat
  sigOk : Bool
  deriving Repr, DecidableEq

abbrev Blacklist := Store Bool

def revokedKey (jti : String) : String := "revoked:" ++ jti

/-- Modelled from the spec: the blacklist machinery behind
`RefreshToken(refresh_token).blacklist()` (views.py lines 537-538) lives in
the external JWT library, not in src.  Per spec §4.4, `revoke` verifies the
token's signature and expiry, then records its unique identifier in the
RevocationList with TTL equal to the refresh token's remaining
lifetime. -/
def revoke (bl : Blacklist) (now : Nat) (t : RefreshTok) :
    Except String Blacklist :=
  if !t.sigOk then .error "InvalidToken"
  else if t.exp ≤ now then .error "ExpiredToken"
  else .ok (cacheSet bl now (revokedKey t.jti) true (t.exp - now))

/-- Modelled from the spec: `isRevoked(tokenId)` consults the
RevocationList; an entry is visible only until its TTL elapses. -/
def isRevoked (bl : Blacklist) (now : Nat) (jti : String) : Bool :=
  (cacheGet bl now (revokedKey jti)).isSome

structure LogoutResponse where
  status : Nat
  message : String
  deriving Repr, DecidableEq

/-- `logout_user` (views.py lines 518-548): read `refresh_token` from the
body; when missing or empty (falsy) skip revocation entirely and answer
200 `Logout successful`; otherwise construct and blacklist the refresh
token, any exception turning into 400 `Logout failed`.  Deserialization of
the presented string is abstracted by the `parse` argument (`none` for a
structurally corrupt serialization). -/
def logout_user (bl : Blacklist) (now : Nat) (body : Option String)
    (parse : String → Option RefreshTok) : LogoutResponse × Blacklist :=
  match body with
  | none => (⟨200, "Logout successful"⟩, bl)
  | some rt =>
    if rt = "" then (⟨200, "Logout successful"⟩, bl)
    else
      match parse rt with
      | none => (⟨400, "Logout failed"⟩, bl)
      | some tok =>
        match revoke bl now tok with
        | .ok bl2 => (⟨200, "Logout successful"⟩, bl2)
        | .error _ => (⟨400, "Logout failed"⟩, bl)

/-- Sample user table for the login claims: one active user with a known
password and one deactivated user with a known password. -/
def loginUsers : List UserRec :=
  [⟨1, "bob@example.com", hashPassword "RightPass1", true, "Bob B"⟩,
   ⟨2, "carol@example.com", hashPassword "CarolPass1", false, "Carol C"⟩]

/-- Sample user table for the registration claim. -/
def c6Users : List UserRec :=
  [⟨1, "alice@example.com", hashPassword "Str0ngPass1", true, "Alice A"⟩]

/-- Concrete sample data for closed-form evaluation: a store holding one
reset token for `alice@example.com` and a user list containing her. -/
def sampleStore : Store TokenData :=
  [⟨resetKey "tok", ⟨"alice@example.com", 1, 0⟩, 600⟩]

def sampleUsers : List UserRec :=
  [⟨1, "alice@example.com", hashPassword "OldPass1", true, "Alice A"⟩]

/-- A store holding a reset token whose email matches no user in an empty
user list: the situation claim C4 speaks about. -/
def orphanStore : Store TokenData :=
  [⟨resetKey "tok", ⟨"ghost@example.com", 7, 0⟩, 600⟩]

theorem cacheGet_empty {V : Type} (now : Nat) (k : String) :
    cacheGet (emptyStore V) now k = none := rfl

theorem cacheGet_removeKey_same {V : Type} (s : Store V) (t : Nat)
    (k : String) : cacheGet (removeKey s k) t k = none := by
  induction s with
  | nil => rfl
  | cons e rest ih =>
    by_cases he : e.key = k
    · simp [removeKey, he, ih]
    · simp [removeKey, cacheGet, he, ih]

theorem cacheGet_removeKey_other {V : Type} (s : Store V) (t : Nat)
    (k k' : String) (hk : k' ≠ k) :
    cacheGet (removeKey s k) t k' = cacheGet s t k' := by
  have hkk : k ≠ k' := fun h => hk h.symm
  induction s with
  | nil => rfl
  | cons e rest ih =>
    by_cases he : e.key = k
    · simp [removeKey, cacheGet, he, hkk, ih]
    · by_cases he' : e.key = k'
      · simp [removeKey, cacheGet, he, he', hk, ih]
      · simp [removeKey, cacheGet, he, he', ih]

theorem cacheGet_cacheSet_same {V : Type} (s : Store V) (now t : Nat)
    (k : String) (v : V) (ttl : Nat) :
    cacheGet (cacheSet s now k v ttl) t k =
      if t < now + ttl then some v else none := by
  simp [cacheGet, cacheSet]

theorem cacheGet_cacheSet_other {V : Type} (s : Store V) (now t : Nat)
    (k k' : String) (v : V) (ttl : Nat) (hk : k' ≠ k) :
    cacheGet (cacheSet s now k v ttl) t k' = cacheGet s t k' := by
  have : k ≠ k' := fun h => hk h.symm
  simp [cacheGet, cacheSet, this, cacheGet_removeKey_other s t k k' hk]

theorem cacheGet_cacheDelete_same {V : Type} (s : Store V) (t : Nat)
    (k : String) : cacheGet (cacheDelete s k) t k = none :=
  cacheGet_removeKey_same s t k

/-! ## Core lemmas about the sliding-window step -/

theorem slidingStep_emptyStore (key : String) (limit window : Nat)
    (hl : 0 < limit) (now : Nat) :
    slidingStep key limit window [] now =
      (true, [⟨key, [now], now + window⟩]) := by
  have h0 : limit ≠ 0 := by omega
  simp [slidingStep, cacheGet, cacheSet, removeKey, h0]

theorem slidingStep_live_entry (key : String) (limit window : Nat)
    (acc : List Nat) (e now : Nat)
    (hlive : now < e)
    (hkeep : ∀ a ∈ acc, now - a < window) :
    slidingStep key limit window [⟨key, acc, e⟩] now =
      (if limit ≤ acc.length then (false, [⟨key, acc, e⟩])
       else (true, [⟨key, acc ++ [now], now + window⟩])) := by
  have hget : cacheGet [⟨key, acc, e⟩] now key = some acc := by
    simp [cacheGet, hlive]
  have hfilter : acc.filter (fun t => decide (now - t < window)) = acc :=
    List.filter_eq_self.mpr (fun a ha => decide_eq_true (hkeep a ha))
  simp only [slidingStep, hget, Option.getD_some, hfilter]
  by_cases hlen : limit ≤ acc.length
  · simp [hlen]
  · simp [hlen, cacheSet, removeKey]

theorem slidingStep_expired_entry (key : String) (limit window : Nat)
    (acc : List Nat) (e now : Nat)
    (hl : 0 < limit) (hexp : e ≤ now) :
    slidingStep key limit window [⟨key, acc, e⟩] now =
      (true, [⟨key, [now], now + window⟩]) := by
  have hget : cacheGet [⟨key, acc, e⟩] now key = none := by
    simp [cacheGet]
    omega
  have h0 : limit ≠ 0 := by omega
  simp [slidingStep, hget, h0, cacheSet, removeKey]

theorem getLastD_cases (l : List Nat) (d : Nat) :
    l.getLastD d = d ∨ l.getLastD d ∈ l := by
  induction l generalizing d with
  | nil => left; rfl
  | cons a l ih =>
    right
    rcases ih a with h | h
    · rw [List.getLastD_cons, h]; exact List.mem_cons_self a l
    · rw [List.getLastD_cons]; exact List.mem_cons_of_mem a h

/-- Filling run: starting from a store whose only entry for the key holds
the already-admitted instants `prev ++ [last]` (entry expiring at
`last + window`), a further burst `ts` of instants all lying in the band
`[t0, t0 + window)` — as do the stored ones — is admitted entirely as long
as the total count stays within the limit, and the final entry holds all
instants, expiring `window` after the last one. -/
theorem runSliding_fill (key : String) (limit window t0 : Nat) :
    ∀ (ts prev : List Nat) (last : Nat),
      (∀ a ∈ prev ++ [last], t0 ≤ a ∧ a < t0 + window) →
      (∀ t ∈ ts, t0 ≤ t ∧ t < t0 + window) →
      (prev ++ [last]).length + ts.length ≤ limit →
      runSliding key limit window [⟨key, prev ++ [last], last + window⟩] ts =
        (List.replicate ts.length true,
         [⟨key, (prev ++ [last]) ++ ts, ts.getLastD last + window⟩]) := by
  intro ts
  induction ts with
  | nil =>
    intro prev last hband hts hlen
    simp [runSliding]
  | cons t ts ih =>
    intro prev last hband hts hlen
    have hband_t : t0 ≤ t ∧ t < t0 + window := hts t (by simp)
    have hlast : t0 ≤ last ∧ last < t0 + window := hband last (by simp)
    have hlive : t < last + window := by omega
    have hkeep : ∀ a ∈ prev ++ [last], t - a < window := by
      intro a ha
      have := hband a ha
      omega
    have hlen' : ¬ limit ≤ (prev ++ [last]).length := by
      simp only [List.length_append, List.length_cons, List.length_nil] at hlen ⊢
      omega
    have hstep := slidingStep_live_entry key limit window (prev ++ [last])
      (last + window) t hlive hkeep
    rw [if_neg hlen'] at hstep
    have hrec := ih (prev ++ [last]) t
      (by
        intro a ha
        rw [List.mem_append] at ha
        rcases ha with ha | ha
        · exact hband a ha
        · simp at ha
          subst ha
          exact hband_t)
      (fun u hu => hts u (List.mem_cons_of_mem t hu))
      (by
        simp only [List.length_append, List.length_cons, List.length_nil] at hlen ⊢
        omega)
    simp only [runSliding, hstep, hrec, List.getLastD_cons]
    simp [List.replicate_succ, List.append_assoc]

/-- The components of the decorator wrapper in terms of the shared step. -/
theorem rate_limit_wrapper_components (mx tw : Nat) (vn ip : String)
    (s : RateStore) (now : Nat) :
    (rate_limit_wrapper mx tw vn ip s now).allowed =
        (slidingStep (rate_limit_key vn ip) mx tw s now).1 ∧
    (rate_limit_wrapper mx tw vn ip s now).retryAfter =
        (if (slidingStep (rate_limit_key vn ip) mx tw s now).1 then none
         else some tw) ∧
    (rate_limit_wrapper mx tw vn ip s now).store =
        (slidingStep (rate_limit_key vn ip) mx tw s now).2 := by
  unfold rate_limit_wrapper
  by_cases h : (slidingStep (rate_limit_key vn ip) mx tw s now).1 <;> simp [h]

theorem run_rate_limit_eq_runSliding (mx tw : Nat) (vn ip : String)
    (s : RateStore) (ts : List Nat) :
    run_rate_limit mx tw vn ip s ts =
      runSliding (rate_limit_key vn ip) mx tw s ts := by
  induction ts generalizing s with
  | nil => rfl
  | cons t ts ih =>
    simp only [run_rate_limit, runSliding, rate_limit_wrapper]
    by_cases h : (slidingStep (rate_limit_key vn ip) mx tw s t).1 <;>
      simp [h, ih]

/-! ## Claims about the rate limiter -/

/-- **C2.** For every (client, endpoint) pair, after exactly `limit`
admitted calls within `window` seconds (here: the burst `t0 :: rest` of
`limit` instants inside `[t0, t0 + window)`, starting from a cold cache)
the next call inside the window is rejected with a retry hint equal to
`window` (`retry_after == time_window` in the 429 body of the decorator);
and after `window` seconds with no calls (any instant `tDecay` at least
`window` past the last admitted call) the next call is admitted again —
the counter fully decays. -/
theorem rate_limit_reject_after_limit_then_decay
    (limit window : Nat) (hl : 0 < limit) (hw : 0 < window)
    (vn ip : String) (t0 : Nat) (rest : List Nat)
    (hlen : rest.length + 1 = limit)
    (hband : ∀ t ∈ rest, t0 ≤ t ∧ t < t0 + window)
    (tNext : Nat) (hnext1 : t0 ≤ tNext) (hnext2 : tNext < t0 + window)
    (tDecay : Nat) (hdecay : rest.getLastD t0 + window ≤ tDecay) :
    (run_rate_limit limit window vn ip (emptyStore _) (t0 :: rest)).1 =
        List.replicate limit true ∧
    (rate_limit_wrapper limit window vn ip
        (run_rate_limit limit window vn ip (emptyStore _) (t0 :: rest)).2
        tNext).allowed = false ∧
    (rate_limit_wrapper limit window vn ip
        (run_rate_limit limit window vn ip (emptyStore _) (t0 :: rest)).2
        tNext).retryAfter = some window ∧
    (rate_limit_wrapper limit window vn ip
        (rate_limit_wrapper limit window vn ip
            (run_rate_limit limit window vn ip (emptyStore _) (t0 :: rest)).2
            tNext).store
        tDecay).allowed = true := by
  have hlast_band : t0 ≤ rest.getLastD t0 ∧ rest.getLastD t0 < t0 + window := by
    rcases getLastD_cases rest t0 with h | h
    · rw [h]; exact ⟨le_refl _, by omega⟩
    · exact hband _ h
  generalize hL : rest.getLastD t0 = lastT at hlast_band hdecay
  have hstep0 := slidingStep_emptyStore (rate_limit_key vn ip) limit window hl t0
  have hfill := runSliding_fill (rate_limit_key vn ip) limit window t0 rest [] t0
      (by
        intro a ha
        simp only [List.nil_append, List.mem_singleton] at ha
        omega)
      hband
      (by simp; omega)
  simp only [List.nil_append] at hfill
  rw [hL] at hfill
  have hrun : run_rate_limit limit window vn ip (emptyStore _) (t0 :: rest) =
      (List.replicate limit true,
       [⟨rate_limit_key vn ip, t0 :: rest, lastT + window⟩]) := by
    rw [run_rate_limit_eq_runSliding]
    show runSliding (rate_limit_key vn ip) limit window [] (t0 :: rest) = _
    simp only [runSliding, hstep0, hfill]
    rw [← hlen]
    simp [List.replicate_succ]
  have hrej : slidingStep (rate_limit_key vn ip) limit window
      [⟨rate_limit_key vn ip, t0 :: rest, lastT + window⟩] tNext =
      (false, [⟨rate_limit_key vn ip, t0 :: rest, lastT + window⟩]) := by
    have hkeep : ∀ a ∈ t0 :: rest, tNext - a < window := by
      intro a ha
      rcases List.mem_cons.mp ha with h | h
      · subst h; omega
      · have := hband a h; omega
    have h := slidingStep_live_entry (rate_limit_key vn ip) limit window
      (t0 :: rest) (lastT + window) tNext (by omega) hkeep
    rw [if_pos (by simp; omega)] at h
    exact h
  have hdec : slidingStep (rate_limit_key vn ip) limit window
      [⟨rate_limit_key vn ip, t0 :: rest, lastT + window⟩] tDecay =
      (true, [⟨rate_limit_key vn ip, [tDecay], tDecay + window⟩]) :=
    slidingStep_expired_entry (rate_limit_key vn ip) limit window
      (t0 :: rest) (lastT + window) tDecay hl hdecay
  refine ⟨by rw [hrun], ?_, ?_, ?_⟩
  · rw [hrun]
    simp only [rate_limit_wrapper, hrej]
    simp
  · rw [hrun]
    simp only [rate_limit_wrapper, hrej]
    simp
  · rw [hrun]
    simp only [rate_limit_wrapper, hrej]
    simp [hdec]

theorem rate_limit_reject_after_limit_then_decay_witness :
    (run_rate_limit 2 10 "login_user" "1.2.3.4" (emptyStore _) [0, 1]).1 =
        List.replicate 2 true ∧
    (rate_limit_wrapper 2 10 "login_user" "1.2.3.4"
        (run_rate_limit 2 10 "login_user" "1.2.3.4" (emptyStore _) [0, 1]).2
        2).allowed = false ∧
    (rate_limit_wrapper 2 10 "login_user" "1.2.3.4"
        (run_rate_limit 2 10 "login_user" "1.2.3.4" (emptyStore _) [0, 1]).2
        2).retryAfter = some 10 ∧
    (rate_limit_wrapper 2 10 "login_user" "1.2.3.4"
        (rate_limit_wrapper 2 10 "login_user" "1.2.3.4"
            (run_rate_limit 2 10 "login_user" "1.2.3.4" (emptyStore _) [0, 1]).2
            2).store
        11).allowed = true :=
  rate_limit_reject_after_limit_then_decay 2 10 (by decide) (by decide)
    "login_user" "1.2.3.4" 0 [1] (by decide) (by decide)
    2 (by decide) (by decide) 11 (by decide)

/-- **C9.** Every response the rate-limit middleware produces is either the
pass-through (handler runs, no retry hint) or the 429 rejection whose
`retry_after` is the fixed constant 60 — in particular every 429 carries
`retry_after = 60` regardless of the matched endpoint's configured window
(300 or 600). -/
theorem middleware_429_retry_after_always_60 (ip path : String)
    (s : RateStore) (now : Nat) :
    (RateLimitMiddleware.call ip path s now).1 =
        ⟨429, some 60, false⟩ ∨
    (RateLimitMiddleware.call ip path s now).1 =
        ⟨200, none, true⟩ := by
  unfold RateLimitMiddleware.call
  by_cases h : (RateLimitMiddleware.is_rate_limited ip path s now).1 <;>
    simp [h]

/-- On the reset-password path the middleware's policy-table scan selects
the (limit 5, window 300) configuration (middleware.py line 38). -/
theorem is_rate_limited_resetPath (ip : String) (s : RateStore) (now : Nat) :
    RateLimitMiddleware.is_rate_limited ip resetPath s now =
      RateLimitMiddleware.check_rate_limit ip resetPath 5 300 s now := rfl

theorem run_middleware_resetPath (ip : String) (s : RateStore)
    (ts : List Nat) :
    run_middleware ip resetPath s ts =
      ((runSliding (middleware_key ip resetPath) 5 300 s ts).1.map
          (fun b =>
            if b then (⟨200, none, true⟩ : RateLimitMiddleware.MwOutcome)
            else ⟨429, some 60, false⟩),
       (runSliding (middleware_key ip resetPath) 5 300 s ts).2) := by
  induction ts generalizing s with
  | nil => rfl
  | cons t ts ih =>
    simp only [run_middleware, runSliding, RateLimitMiddleware.call,
      is_rate_limited_resetPath, RateLimitMiddleware.check_rate_limit]
    by_cases h : (slidingStep (middleware_key ip resetPath) 5 300 s t).1 <;>
      simp [h, ih]

/-- **C7.** Every inbound request to the reset-password endpoint first
passes through the rate-limit middleware, whose policy table assigns the
endpoint limit 5 and window 300 seconds: starting from a cold cache, five
requests from one client within 300 seconds all reach the downstream
handler, and the 6th request from the same client within the same 300
seconds is answered 429 with a retry hint, the handler (the reset logic)
not running. -/
theorem reset_password_sixth_request_rejected
    (ip : String) (t0 t1 t2 t3 t4 t5 : Nat)
    (h1 : t0 ≤ t1 ∧ t1 < t0 + 300) (h2 : t0 ≤ t2 ∧ t2 < t0 + 300)
    (h3 : t0 ≤ t3 ∧ t3 < t0 + 300) (h4 : t0 ≤ t4 ∧ t4 < t0 + 300)
    (h5 : t0 ≤ t5 ∧ t5 < t0 + 300) :
    (run_middleware ip resetPath (emptyStore _) [t0, t1, t2, t3, t4]).1 =
        List.replicate 5 (⟨200, none, true⟩ : RateLimitMiddleware.MwOutcome) ∧
    (RateLimitMiddleware.call ip resetPath
        (run_middleware ip resetPath (emptyStore _) [t0, t1, t2, t3, t4]).2
        t5).1 = ⟨429, some 60, false⟩ := by
  have hstep0 := slidingStep_emptyStore (middleware_key ip resetPath) 5 300
    (by decide) t0
  have hfill := runSliding_fill (middleware_key ip resetPath) 5 300 t0
      [t1, t2, t3, t4] [] t0
      (by
        intro a ha
        simp only [List.nil_append, List.mem_singleton] at ha
        omega)
      (by
        intro t ht
        simp only [List.mem_cons, List.not_mem_nil, or_false] at ht
        rcases ht with rfl | rfl | rfl | rfl
        · exact h1
        · exact h2
        · exact h3
        · exact h4)
      (by simp)
  simp only [List.nil_append] at hfill
  have hlast : List.getLastD [t1, t2, t3, t4] t0 = t4 := rfl
  rw [hlast] at hfill
  have hcons : ∀ (s : RateStore) (t : Nat) (ts : List Nat),
      runSliding (middleware_key ip resetPath) 5 300 s (t :: ts) =
        ((slidingStep (middleware_key ip resetPath) 5 300 s t).1 ::
          (runSliding (middleware_key ip resetPath) 5 300
            (slidingStep (middleware_key ip resetPath) 5 300 s t).2 ts).1,
         (runSliding (middleware_key ip resetPath) 5 300
            (slidingStep (middleware_key ip resetPath) 5 300 s t).2 ts).2) :=
    fun s t ts => rfl
  have hrun : runSliding (middleware_key ip resetPath) 5 300 [] [t0, t1, t2, t3, t4] =
      (List.replicate 5 true,
       [⟨middleware_key ip resetPath, [t0, t1, t2, t3, t4], t4 + 300⟩]) := by
    rw [hcons]
    simp only [hstep0, hfill]
    simp [List.replicate_succ]
  have hrej : slidingStep (middleware_key ip resetPath) 5 300
      [⟨middleware_key ip resetPath, [t0, t1, t2, t3, t4], t4 + 300⟩] t5 =
      (false, [⟨middleware_key ip resetPath, [t0, t1, t2, t3, t4], t4 + 300⟩]) := by
    have hkeep : ∀ a ∈ [t0, t1, t2, t3, t4], t5 - a < 300 := by
      intro a ha
      simp only [List.mem_cons, List.not_mem_nil, or_false] at ha
      rcases ha with rfl | rfl | rfl | rfl | rfl <;> omega
    have h := slidingStep_live_entry (middleware_key ip resetPath) 5 300
      [t0, t1, t2, t3, t4] (t4 + 300) t5 (by omega) hkeep
    rw [if_pos (by simp)] at h
    exact h
  constructor
  · rw [run_middleware_resetPath]
    simp only [emptyStore]
    rw [hrun]
    simp [List.map_replicate]
  · rw [run_middleware_resetPath]
    simp only [emptyStore]
    rw [hrun]
    simp only [RateLimitMiddleware.call, is_rate_limited_resetPath,
      RateLimitMiddleware.check_rate_limit, hrej]
    simp

theorem reset_password_sixth_request_rejected_witness :
    (run_middleware "9.9.9.9" resetPath (emptyStore _) [0, 1, 2, 3, 4]).1 =
        List.replicate 5 (⟨200, none, true⟩ : RateLimitMiddleware.MwOutcome) ∧
    (RateLimitMiddleware.call "9.9.9.9" resetPath
        (run_middleware "9.9.9.9" resetPath (emptyStore _) [0, 1, 2, 3, 4]).2
        5).1 = ⟨429, some 60, false⟩ :=
  reset_password_sixth_request_rejected "9.9.9.9" 0 1 2 3 4 5
    (by decide) (by decide) (by decide) (by decide) (by decide)

/-! ## Claims about the reset-token vault -/

/-- **C1.** For every issued reset token, at most one call to the
consumption operation (`reset_password`) succeeds: after a successful
consumption of a token, any subsequent consumption of the same token
returns failure, and resolving the token (`validate_reset_token`) returns
not-found. -/
theorem reset_token_single_use
    (s : Store TokenData) (users : List UserRec) (now : Nat)
    (token pw : String)
    (h : (PasswordResetService.reset_password s users now token pw).success = true)
    (users' : List UserRec) (now' : Nat) (pw' : String) :
    (PasswordResetService.reset_password
        (PasswordResetService.reset_password s users now token pw).store
        users' now' token pw').success = false ∧
    PasswordResetService.validate_reset_token
        (PasswordResetService.reset_password s users now token pw).store
        now' token = none := by
  unfold PasswordResetService.reset_password at h ⊢
  unfold PasswordResetService.validate_reset_token
  cases hget : cacheGet s now (resetKey token) with
  | none => simp [hget] at h
  | some td =>
    simp only [hget] at h ⊢
    cases huser : getUserByEmail users td.email with
    | none => simp [huser] at h
    | some u =>
      simp only [huser]
      simp [cacheGet_cacheDelete_same]


theorem reset_token_single_use_witness :
    (PasswordResetService.reset_password
        (PasswordResetService.reset_password sampleStore sampleUsers 0 "tok" "NewPass1").store
        sampleUsers 5 "tok" "NewPass2").success = false ∧
    PasswordResetService.validate_reset_token
        (PasswordResetService.reset_password sampleStore sampleUsers 0 "tok" "NewPass1").store
        5 "tok" = none :=
  reset_token_single_use sampleStore sampleUsers 0 "tok" "NewPass1" (by decide)
    sampleUsers 5 "NewPass2"


/-- **C4, counterexample.** The claim says that once the reset token has
been found in the store, it is discarded regardless of the outcome of the
password-hash update, in particular even when the user record for the
token's email cannot be found.  On the code this is false: with a stored
token for `ghost@example.com` and no such user, `reset_password` returns
failure and the token is still present (resolving it still yields the
email) — `cache.delete` on services.py line 91 is only reached on the
success path. -/
theorem reset_password_orphan_retains_token :
    (cacheGet orphanStore 0 (resetKey "tok")).isSome = true ∧
    (PasswordResetService.reset_password orphanStore [] 0 "tok" "NewPass1").success = false ∧
    (PasswordResetService.reset_password orphanStore [] 0 "tok" "NewPass1").store = orphanStore ∧
    PasswordResetService.validate_reset_token
      (PasswordResetService.reset_password orphanStore [] 0 "tok" "NewPass1").store
      0 "tok" = some "ghost@example.com" := by
  refine ⟨by decide, by decide, by decide, by decide⟩

/-- **C4, amended.** The token is discarded from the store exactly when the
whole operation succeeds (token found *and* the user record for its email
found, so the password-hash update goes through); on every failure — the
token absent, or the token found but the user record missing — the store is
returned unchanged, the token retained. -/
theorem reset_password_discards_iff_success
    (s : Store TokenData) (users : List UserRec) (now : Nat)
    (token pw : String) :
    (PasswordResetService.reset_password s users now token pw).store =
      (if (PasswordResetService.reset_password s users now token pw).success
       then cacheDelete s (resetKey token) else s) := by
  unfold PasswordResetService.reset_password
  cases hget : cacheGet s now (resetKey token) with
  | none => rfl
  | some td =>
    cases huser : getUserByEmail users td.email with
    | none => simp [huser]
    | some u => simp [huser]

/-- **C10.** For every successful forgot-password request (the submitted
email resolves to a user both raw — serializer validation — and lowercased
— service lookup), the HTTP 200 response body itself contains the newly
issued reset token in the `token` field and the target email in the `email`
field; and the issued token indeed resolves to that email in the new
store. -/
theorem forgot_password_returns_token_in_body
    (users : List UserRec) (s : Store TokenData) (now : Nat)
    (em freshToken : String) (u u' : UserRec)
    (hraw : getUserByEmail users em = some u)
    (hlow : getUserByEmail users (pyLower em) = some u') :
    (Views.request_password_reset users s now (some em) freshToken).1.status = 200 ∧
    (Views.request_password_reset users s now (some em) freshToken).1.token = some freshToken ∧
    (Views.request_password_reset users s now (some em) freshToken).1.email = some (pyLower em) ∧
    PasswordResetService.validate_reset_token
      (Views.request_password_reset users s now (some em) freshToken).2
      now freshToken = some (pyLower em) := by
  unfold Views.request_password_reset
  unfold PasswordResetService.create_password_reset_token
  simp only [hraw, hlow]
  refine ⟨trivial, trivial, trivial, ?_⟩
  unfold PasswordResetService.validate_reset_token
  rw [cacheGet_cacheSet_same]
  simp [TOKEN_EXPIRY_SECONDS]

theorem forgot_password_returns_token_in_body_witness :
    (Views.request_password_reset sampleUsers [] 0 (some "alice@example.com") "freshTok").1.status = 200 ∧
    (Views.request_password_reset sampleUsers [] 0 (some "alice@example.com") "freshTok").1.token = some "freshTok" ∧
    (Views.request_password_reset sampleUsers [] 0 (some "alice@example.com") "freshTok").1.email = some (pyLower "alice@example.com") ∧
    PasswordResetService.validate_reset_token
      (Views.request_password_reset sampleUsers [] 0 (some "alice@example.com") "freshTok").2
      0 "freshTok" = some (pyLower "alice@example.com") :=
  forgot_password_returns_token_in_body sampleUsers [] 0 "alice@example.com"
    "freshTok" ⟨1, "alice@example.com", hashPassword "OldPass1", true, "Alice A"⟩
    ⟨1, "alice@example.com", hashPassword "OldPass1", true, "Alice A"⟩
    (by decide) (by decide)


theorem appendLeftCancel (p a b : String) (h : p ++ a = p ++ b) : a = b := by
  have hd : (p ++ a).data = (p ++ b).data := by rw [h]
  rw [String.data_append, String.data_append] at hd
  exact String.ext (List.append_cancel_left hd)

theorem revokedKey_inj (a b : String) (h : a ≠ b) :
    revokedKey a ≠ revokedKey b :=
  fun hc => h (appendLeftCancel "revoked:" a b hc)

/-! ## Claims about login, registration, logout -/

/-- **C5.** A login with an email matching no user and a login with an
existing email but a wrong password produce the identical
`Invalid email or password.` error (no email enumeration); a login with
the correct password for an account whose active flag is false fails with
the distinct `User account is disabled.` error, not the
invalid-credentials one. -/
theorem login_error_uniform_and_disabled_distinct
    (users : List UserRec)
    (e1 p1 : String) (he1 : e1 ≠ "") (hp1 : p1 ≠ "")
    (hnouser : getUserByEmail users e1 = none)
    (e2 p2 : String) (he2 : e2 ≠ "") (hp2 : p2 ≠ "")
    (u2 : UserRec) (hu2 : getUserByEmail users e2 = some u2)
    (hwrong : u2.passwordHash ≠ hashPassword p2)
    (e3 p3 : String) (he3 : e3 ≠ "") (hp3 : p3 ≠ "")
    (u3 : UserRec) (hu3 : getUserByEmail users e3 = some u3)
    (hright : u3.passwordHash = hashPassword p3)
    (hinactive : u3.isActive = false) :
    UserLoginSerializer.validate users e1 p1 =
        .err "Invalid email or password." ∧
    UserLoginSerializer.validate users e2 p2 =
        .err "Invalid email or password." ∧
    UserLoginSerializer.validate users e1 p1 =
        UserLoginSerializer.validate users e2 p2 ∧
    UserLoginSerializer.validate users e3 p3 =
        .err "User account is disabled." ∧
    UserLoginSerializer.validate users e3 p3 ≠
        UserLoginSerializer.validate users e2 p2 := by
  have hv1 : UserLoginSerializer.validate users e1 p1 =
      .err "Invalid email or password." := by
    simp only [UserLoginSerializer.validate, authenticate, hnouser]
    simp [he1, hp1]
  have hv2 : UserLoginSerializer.validate users e2 p2 =
      .err "Invalid email or password." := by
    simp only [UserLoginSerializer.validate, authenticate, hu2]
    simp [he2, hp2, hwrong]
  have hv3 : UserLoginSerializer.validate users e3 p3 =
      .err "User account is disabled." := by
    simp only [UserLoginSerializer.validate, authenticate, hu3]
    simp [he3, hp3, hright, hinactive]
  refine ⟨hv1, hv2, by rw [hv1, hv2], hv3, ?_⟩
  rw [hv3, hv2]
  decide

theorem login_error_uniform_and_disabled_distinct_witness :
    UserLoginSerializer.validate loginUsers "ghost@example.com" "AnyPass1" =
        .err "Invalid email or password." ∧
    UserLoginSerializer.validate loginUsers "bob@example.com" "WrongPass1" =
        .err "Invalid email or password." ∧
    UserLoginSerializer.validate loginUsers "ghost@example.com" "AnyPass1" =
        UserLoginSerializer.validate loginUsers "bob@example.com" "WrongPass1" ∧
    UserLoginSerializer.validate loginUsers "carol@example.com" "CarolPass1" =
        .err "User account is disabled." ∧
    UserLoginSerializer.validate loginUsers "carol@example.com" "CarolPass1" ≠
        UserLoginSerializer.validate loginUsers "bob@example.com" "WrongPass1" :=
  login_error_uniform_and_disabled_distinct loginUsers
    "ghost@example.com" "AnyPass1" (by decide) (by decide) (by decide)
    "bob@example.com" "WrongPass1" (by decide) (by decide)
    ⟨1, "bob@example.com", hashPassword "RightPass1", true, "Bob B"⟩
    (by decide) (by decide)
    "carol@example.com" "CarolPass1" (by decide) (by decide)
    ⟨2, "carol@example.com", hashPassword "CarolPass1", false, "Carol C"⟩
    (by decide) (by decide) (by decide)

/-- **C6, counterexample.** The claim says a registration whose email
case-folds to a stored (normalized) email fails with the duplicate-email
validation error rather than creating a user or raising an unhandled
fault.  On the code it is false: with `alice@example.com` stored, the
request email `Alice@example.com` passes `validate_email` (the duplicate
check compares the raw value, serializers.py line 31, before lowercasing
on line 35), and the subsequent create runs into the `unique=True`
constraint — an unhandled integrity fault, not the validation error. -/
theorem register_case_variant_duplicate_not_rejected :
    pyLower "Alice@example.com" = "alice@example.com" ∧
    (c6Users.any (fun u => u.email == pyLower "Alice@example.com")) = true ∧
    UserRegistrationSerializer.validate_email c6Users "Alice@example.com" =
      some "alice@example.com" ∧
    register_email_flow c6Users "Alice@example.com" 2 "Alice B" "h" =
      .integrityFault := by
  refine ⟨by decide, by decide, by decide, by decide⟩

/-- **C6, amended.** A registration whose email collides, after
case-folding, with a stored (normalized) email never creates a user, but
the failure mode depends on the raw string: an exact raw match is rejected
with the duplicate-email validation error, while a mere case-variant match
passes email validation (which lowercases only after the raw-value
duplicate check) and aborts in the create step on the uniqueness
constraint — an unhandled integrity fault.  When no collision exists the
user is created, and the stored email is the case-folded submitted value —
emails that do get stored are case-folded. -/
theorem register_duplicate_email_never_creates
    (users : List UserRec) (value : String) (fid : Nat) (fn ph : String) :
    register_email_flow users value fid fn ph =
      (if users.any (fun u => u.email == value) then .duplicateEmailError
       else if users.any (fun u => u.email == pyLower value) then
         .integrityFault
       else .created (users ++ [⟨fid, pyLower value, ph, true, fn⟩])
              (pyLower value)) := by
  unfold register_email_flow UserRegistrationSerializer.validate_email
  by_cases hraw : users.any (fun u => u.email == value)
  · simp [hraw]
  · by_cases hnorm : users.any (fun u => u.email == pyLower value)
    · simp [hraw, hnorm]
    · simp [hraw, hnorm]

/-- **C8.** When the logout request body carries no `refresh_token`
(missing or empty), `logout_user` answers 200 `Logout successful` and the
revocation state is untouched — no token is blacklisted. -/
theorem logout_missing_token_succeeds
    (bl : Blacklist) (now : Nat) (body : Option String)
    (parse : String → Option RefreshTok)
    (h : body = none ∨ body = some "") :
    (logout_user bl now body parse).1 = ⟨200, "Logout successful"⟩ ∧
    (logout_user bl now body parse).2 = bl := by
  rcases h with h | h <;> subst h <;> simp [logout_user]

theorem logout_missing_token_succeeds_witness :
    (logout_user [] 0 (some "") (fun _ => none)).1 =
        ⟨200, "Logout successful"⟩ ∧
    (logout_user [] 0 (some "") (fun _ => none)).2 = [] :=
  logout_missing_token_succeeds [] 0 (some "") (fun _ => none) (Or.inr rfl)

/-- **C3.** Revoking a refresh token via logout records its identifier in
the revocation list with TTL equal to the token's remaining lifetime: the
entry resolves exactly while the token itself is still within its expiry
(`isRevoked` is true at an instant iff that instant precedes the token's
own expiry, hence the record is unresolvable once the remaining TTL has
elapsed), and the revocation state of every other identifier is untouched
— in particular `isRevoked` stays false for every other issued,
unrevoked token. -/
theorem logout_revocation_ttl_and_isolation
    (bl : Blacklist) (now : Nat) (rt : String) (hrt : rt ≠ "")
    (parse : String → Option RefreshTok) (tok : RefreshTok)
    (hparse : parse rt = some tok)
    (hsig : tok.sigOk = true) (hexp : now < tok.exp)
    (tQuery : Nat) (other : String) (hother : other ≠ tok.jti) :
    (logout_user bl now (some rt) parse).1 = ⟨200, "Logout successful"⟩ ∧
    isRevoked (logout_user bl now (some rt) parse).2 tQuery tok.jti =
      decide (tQuery < tok.exp) ∧
    isRevoked (logout_user bl now (some rt) parse).2 tQuery other =
      isRevoked bl tQuery other := by
  have hn : ¬ tok.exp ≤ now := by omega
  have hout : logout_user bl now (some rt) parse =
      (⟨200, "Logout successful"⟩,
       cacheSet bl now (revokedKey tok.jti) true (tok.exp - now)) := by
    simp [logout_user, hrt, hparse, revoke, hsig, hn]
  rw [hout]
  refine ⟨rfl, ?_, ?_⟩
  · unfold isRevoked
    rw [cacheGet_cacheSet_same]
    have he : now + (tok.exp - now) = tok.exp := by omega
    rw [he]
    by_cases hq : tQuery < tok.exp <;> simp [hq]
  · unfold isRevoked
    rw [cacheGet_cacheSet_other _ _ _ _ _ _ _ (revokedKey_inj other tok.jti hother)]

theorem logout_revocation_ttl_and_isolation_witness :
    (logout_user [] 100 (some "rt1")
        (fun _ => some ⟨"jti1", 200, true⟩)).1 = ⟨200, "Logout successful"⟩ ∧
    isRevoked (logout_user [] 100 (some "rt1")
        (fun _ => some ⟨"jti1", 200, true⟩)).2 250 "jti1" =
      decide (250 < 200) ∧
    isRevoked (logout_user [] 100 (some "rt1")
        (fun _ => some ⟨"jti1", 200, true⟩)).2 250 "jti2" =
      isRevoked [] 250 "jti2" :=
  logout_revocation_ttl_and_isolation [] 100 "rt1" (by decide)
    (fun _ => some ⟨"jti1", 200, true⟩) ⟨"jti1", 200, true⟩ rfl
    rfl (by decide) 250 "jti2" (by decide)

end AuthService
